import Mathlib

/-!
Shallow embedding of the `rust_core` crate of screen-aware-multimodal-agent.

Conventions of the embedding:
* Raw image buffers (`&[u8]`) are `List ℕ` of byte values; `img_data[i]` becomes
  `img_data.getD i 0` (every access the code performs is proved in bounds, so the
  default is never observed on the guarded path).
* `u32`/`u64`/`usize` quantities become `ℕ`; `i32` quantities that can be negative
  (world coordinates, tutorial varbit) become `ℤ`.  Narrowing and wrapping operations
  are modeled explicitly: `capture_ms as u32` as `% 2 ^ 32`; the detectors'
  `(width * height) as usize`, whose multiplication happens in `u32` and therefore
  wraps modulo `2 ^ 32` (release semantics; an overflow-checked build panics
  instead), as `width * height % 2 ^ 32`; and the centroid's `usize as i32` cast via
  `usize_as_i32` (truncate to 32 bits, reinterpret as two's complement).  The
  centroid sums themselves stay exact: with at most `2 ^ 32 - 1` scanned pixels of
  coordinates below `2 ^ 32 - 1` they are bounded by `(2 ^ 32 - 1) * (2 ^ 32 - 2) <
  2 ^ 64` and cannot wrap `usize`.
* `f32` confidence values are modeled as exact rationals `ℚ`; the code's
  `(count as f32 / N).min(1.0)` becomes `min ((count : ℚ) / N) 1`.
* Rust `Option`/`Result` become Lean `Option`/`Except String`.
* Wall-clock measurements (`Instant::now`) are environment inputs with no data flow
  into any other field; they are modeled as the constant 0 (`validation_ms`).
* `HashMap` fields become association lists; `serde_json::Value` payload entries are
  never inspected by any modeled function and are represented as raw strings.
-/

/-! ## detection.rs -/

/-- The Rust `usize as i32` cast: truncate to the low 32 bits and reinterpret them
as a two's-complement signed value. -/
def usize_as_i32 (n : ℕ) : ℤ :=
  if n % 2 ^ 32 < 2 ^ 31 then ((n % 2 ^ 32 : ℕ) : ℤ)
  else ((n % 2 ^ 32 : ℕ) : ℤ) - 2 ^ 32

/-- `find_yellow_arrow` from `src/rust_core/src/detection.rs`.

Scans an RGBA buffer (4 bytes per pixel, row-major) for pixels with
`r > 200 && g > 200 && b < 80`, and returns the integer-division centroid (each
mean cast `usize as i32`) and a confidence `min(count / 500, 1.0)` when at least
10 pixels match.  `let total_pixels = (width * height) as usize` multiplies in
`u32` before widening, so it wraps modulo `2 ^ 32` (release semantics; an
overflow-checked build panics on the same inputs).  The rayon
`into_par_iter().filter_map(...).collect()` preserves index order, so it is the
sequential `filterMap` over `0..total_pixels`. -/
def find_yellow_arrow (img_data : List ℕ) (width height : ℕ) : Option (ℤ × ℤ × ℚ) :=
  let pixels_per_row := width
  let total_pixels := width * height % 2 ^ 32
  if img_data.length < total_pixels * 4 then none else
  let yellow_pixels : List (ℕ × ℕ) :=
    (List.range total_pixels).filterMap (fun i =>
      let offset := i * 4
      let r := img_data.getD offset 0
      let g := img_data.getD (offset + 1) 0
      let b := img_data.getD (offset + 2) 0
      if 200 < r ∧ 200 < g ∧ b < 80 then
        some (i % pixels_per_row, i / pixels_per_row)
      else none)
  if yellow_pixels.length < 10 then none else
  let sum_x := (yellow_pixels.map (fun p => p.1)).sum
  let sum_y := (yellow_pixels.map (fun p => p.2)).sum
  let count := yellow_pixels.length
  some (usize_as_i32 (sum_x / count), usize_as_i32 (sum_y / count),
    min ((count : ℚ) / 500) 1)

/-- `find_cyan_highlight` from `src/rust_core/src/detection.rs`: predicate
`r < 80 && g > 180 && b > 180`, threshold 20, normalizer 1000; same wrapping u32
`width * height` product and `usize as i32` centroid casts. -/
def find_cyan_highlight (img_data : List ℕ) (width height : ℕ) : Option (ℤ × ℤ × ℚ) :=
  let pixels_per_row := width
  let total_pixels := width * height % 2 ^ 32
  if img_data.length < total_pixels * 4 then none else
  let cyan_pixels : List (ℕ × ℕ) :=
    (List.range total_pixels).filterMap (fun i =>
      let offset := i * 4
      let r := img_data.getD offset 0
      let g := img_data.getD (offset + 1) 0
      let b := img_data.getD (offset + 2) 0
      if r < 80 ∧ 180 < g ∧ 180 < b then
        some (i % pixels_per_row, i / pixels_per_row)
      else none)
  if cyan_pixels.length < 20 then none else
  let sum_x := (cyan_pixels.map (fun p => p.1)).sum
  let sum_y := (cyan_pixels.map (fun p => p.2)).sum
  let count := cyan_pixels.length
  some (usize_as_i32 (sum_x / count), usize_as_i32 (sum_y / count),
    min ((count : ℚ) / 1000) 1)

/-- The pixel indices whose yellow predicate holds among the indices the code
actually scans (`0 .. width * height % 2 ^ 32`): specification-side view of the
scan inside `find_yellow_arrow` (same predicate, same index range). -/
def yellowMatches (img_data : List ℕ) (width height : ℕ) : List ℕ :=
  (List.range (width * height % 2 ^ 32)).filter (fun i =>
    decide (200 < img_data.getD (i * 4) 0 ∧ 200 < img_data.getD (i * 4 + 1) 0 ∧
      img_data.getD (i * 4 + 2) 0 < 80))

/-- The scanned pixel indices whose cyan predicate holds. -/
def cyanMatches (img_data : List ℕ) (width height : ℕ) : List ℕ :=
  (List.range (width * height % 2 ^ 32)).filter (fun i =>
    decide (img_data.getD (i * 4) 0 < 80 ∧ 180 < img_data.getD (i * 4 + 1) 0 ∧
      180 < img_data.getD (i * 4 + 2) 0))

/-- The byte offsets the scan reads for pixel index `i`: `i*4`, `i*4+1`, `i*4+2`
(red, green, blue; alpha is never read). -/
def readOffsets (i : ℕ) : List ℕ := [i * 4, i * 4 + 1, i * 4 + 2]

/-! ## lib.rs foreign-boundary wrappers for detection

`detect_arrow` / `detect_highlight` in `src/rust_core/src/lib.rs` wrap the pure
detectors in `PyResult` (modeled as `Except String`) and always return `Ok`. -/

/-- `detect_arrow` from `src/rust_core/src/lib.rs`: `Ok(find_yellow_arrow(..))`. -/
def detect_arrow (img_data : List ℕ) (width height : ℕ) :
    Except String (Option (ℤ × ℤ × ℚ)) :=
  Except.ok (find_yellow_arrow img_data width height)

/-- `detect_highlight` from `src/rust_core/src/lib.rs`: `Ok(find_cyan_highlight(..))`. -/
def detect_highlight (img_data : List ℕ) (width height : ℕ) :
    Except String (Option (ℤ × ℤ × ℚ)) :=
  Except.ok (find_cyan_highlight img_data width height)

/-! ## integration.rs : timing budgets -/

def RSPROX_POLL_MS : ℕ := 50
def PERCEPTION_MS : ℕ := 100
def DECISION_MS : ℕ := 200
def EXECUTION_MS : ℕ := 150
def VERIFICATION_MS : ℕ := 50
def TOTAL_BUDGET_MS : ℕ := 600

/-! ## integration.rs : snapshot schema types -/

structure Bounds where
  x : ℤ
  y : ℤ
  width : ℤ
  height : ℤ
  deriving Repr, DecidableEq

def Bounds.default : Bounds := ⟨0, 0, 0, 0⟩

structure ClientInfo where
  window_title : String
  bounds : Bounds
  focused : Bool
  scale : ℚ
  fps : ℕ
  capture_latency_ms : ℕ
  deriving Repr, DecidableEq

def ClientInfo.default : ClientInfo := ⟨"", Bounds.default, false, 0, 0, 0⟩

structure RoiInfo where
  minimap : Bounds
  inventory : Bounds
  chatbox : Bounds
  game_view : Bounds
  deriving Repr, DecidableEq

def RoiInfo.default : RoiInfo := ⟨Bounds.default, Bounds.default, Bounds.default, Bounds.default⟩

structure UiElement where
  id : String
  element_type : String
  bounds : Bounds
  visible : Bool
  deriving Repr, DecidableEq

structure UiInfo where
  open_interface : String
  selected_tab : String
  cursor_state : String
  hover_text : String
  elements : List UiElement
  dialogue_options : List String
  deriving Repr, DecidableEq

def UiInfo.default : UiInfo := ⟨"", "", "", "", [], []⟩

structure OcrEntry where
  region : String
  text : String
  confidence : ℚ
  deriving Repr, DecidableEq

structure CuesInfo where
  animation_state : String
  highlight_state : String
  modal_state : String
  hover_text : String
  chat_prompt : String
  deriving Repr, DecidableEq

def CuesInfo.default : CuesInfo := ⟨"", "", "", "", ""⟩

structure WorldCoord where
  x : ℤ
  y : ℤ
  plane : ℤ
  deriving Repr, DecidableEq

def WorldCoord.default : WorldCoord := ⟨0, 0, 0⟩

structure LocationInfo where
  region : String
  subarea : String
  coordinates : WorldCoord
  deriving Repr, DecidableEq

def LocationInfo.default : LocationInfo := ⟨"", "", WorldCoord.default⟩

structure ActivityInfo where
  activity_type : String
  state : String
  progress : ℚ
  deriving Repr, DecidableEq

def ActivityInfo.default : ActivityInfo := ⟨"", "", 0⟩

structure CombatInfo where
  state : String
  deriving Repr, DecidableEq

def CombatInfo.default : CombatInfo := ⟨""⟩

structure DerivedInfo where
  location : LocationInfo
  activity : ActivityInfo
  combat : CombatInfo
  deriving Repr, DecidableEq

def DerivedInfo.default : DerivedInfo := ⟨LocationInfo.default, ActivityInfo.default, CombatInfo.default⟩

structure SkillInfo where
  level : ℕ
  xp : ℕ
  deriving Repr, DecidableEq

structure InventoryItem where
  slot : ℕ
  item_id : ℤ
  name : String
  quantity : ℤ
  deriving Repr, DecidableEq

structure ResourceInfo where
  gp : ℤ
  deriving Repr, DecidableEq

structure AccountInfo where
  name : String
  membership_status : String
  skills : List (String × SkillInfo)
  inventory : List InventoryItem
  equipment : List (String × String)
  resources : ResourceInfo
  deriving Repr, DecidableEq

def AccountInfo.default : AccountInfo := ⟨"", "", [], [], [], ⟨0⟩⟩

structure NpcInfo where
  name : String
  id : ℤ
  x : ℤ
  y : ℤ
  deriving Repr, DecidableEq

structure RuneliteData where
  fresh : Bool
  tutorial_progress : ℤ
  inventory_count : ℤ
  camera_direction : String
  npcs_on_screen : List NpcInfo
  player_screen : Option (ℤ × ℤ)
  player_world : Option (ℤ × ℤ × ℤ)
  deriving Repr, DecidableEq

def RuneliteData.default : RuneliteData := ⟨false, 0, 0, "", [], none, none⟩

structure SnapshotSchema where
  capture_id : String
  timestamp : String
  version : ℕ
  stale : Bool
  session_id : String
  client : ClientInfo
  roi : RoiInfo
  ui : UiInfo
  ocr : List OcrEntry
  cues : CuesInfo
  derived : DerivedInfo
  account : AccountInfo
  runelite_data : RuneliteData
  deriving Repr, DecidableEq

def SnapshotSchema.default : SnapshotSchema :=
  ⟨"", "", 0, false, "", ClientInfo.default, RoiInfo.default, UiInfo.default, [],
    CuesInfo.default, DerivedInfo.default, AccountInfo.default, RuneliteData.default⟩

/-! ## integration.rs : action intent types -/

structure ActionTarget where
  x : Option ℤ
  y : Option ℤ
  name : Option String
  ui_element : Option String
  npc_id : Option ℤ
  object_id : Option ℤ
  deriving Repr, DecidableEq

def ActionTarget.default : ActionTarget := ⟨none, none, none, none, none, none⟩

structure GatingConfig where
  require_hover : Bool
  require_visible : Bool
  timeout_ms : ℕ
  deriving Repr, DecidableEq

def GatingConfig.default : GatingConfig := ⟨false, false, 0⟩

structure ActionIntent where
  intent_id : String
  action_type : String
  target : ActionTarget
  confidence : ℚ
  required_cues : List String
  gating : GatingConfig
  payload : List (String × String)
  deriving Repr, DecidableEq

/-! ## integration.rs : validation -/

structure ValidationResult where
  valid : Bool
  errors : List String
  validation_ms : ℕ
  deriving Repr, DecidableEq

def VALID_ACTION_TYPES : List String :=
  ["click", "move", "drag", "key", "scroll", "wait",
   "walk", "interact", "dialogue", "inventory", "camera"]

/-- `validate_intent` from `src/rust_core/src/integration.rs`.  Error strings keep the
source text, with the ASCII apostrophe written as the escape `\x27`.
`validation_ms` (wall-clock elapsed) is modeled as 0. -/
def validate_intent (intent : ActionIntent) : ValidationResult :=
  let errors0 : List String := []
  let errors1 :=
    if intent.action_type = "" then
      errors0 ++ ["Missing required field: action_type"]
    else if ¬ VALID_ACTION_TYPES.contains intent.action_type then
      errors0 ++ ["Invalid action_type: " ++ intent.action_type]
    else errors0
  let requires_target : List String := ["click", "interact", "walk", "drag"]
  let has_target := intent.target.x.isSome
    || intent.target.name.isSome
    || intent.target.ui_element.isSome
    || intent.target.npc_id.isSome
    || intent.target.object_id.isSome
  let errors2 :=
    if requires_target.contains intent.action_type ∧ has_target = false then
      errors1 ++ ["Action type \x27" ++ intent.action_type ++ "\x27 requires target"]
    else errors1
  let errors3 :=
    if intent.confidence < 0 ∨ 1 < intent.confidence then
      errors2 ++ ["Confidence out of range: " ++ toString intent.confidence]
    else errors2
  { valid := errors3.isEmpty, errors := errors3, validation_ms := 0 }

/-- `validate_snapshot` from `src/rust_core/src/integration.rs`. -/
def validate_snapshot (snapshot : SnapshotSchema) : ValidationResult :=
  let errors0 : List String := []
  let errors1 :=
    if snapshot.capture_id = "" then errors0 ++ ["Missing capture_id"] else errors0
  let errors2 :=
    if snapshot.timestamp = "" then errors1 ++ ["Missing timestamp"] else errors1
  let errors3 :=
    if snapshot.session_id = "" then errors2 ++ ["Missing session_id"] else errors2
  let errors4 :=
    if snapshot.client.bounds.width ≤ 0 ∨ snapshot.client.bounds.height ≤ 0 then
      errors3 ++ ["Invalid client bounds"]
    else errors3
  { valid := errors4.isEmpty, errors := errors4, validation_ms := 0 }

/-! ## integration.rs : region / tutorial-phase inference -/

/-- `infer_region` from `src/rust_core/src/integration.rs`: ordered rectangle table,
first match wins, fallback `"unknown"`. -/
def infer_region (x y : ℤ) : String :=
  if 3050 ≤ x ∧ x ≤ 3150 ∧ 3050 ≤ y ∧ y ≤ 3150 then "Tutorial Island"
  else if 3200 ≤ x ∧ x ≤ 3250 ∧ 3200 ≤ y ∧ y ≤ 3250 then "Lumbridge"
  else if 3180 ≤ x ∧ x ≤ 3290 ∧ 3380 ≤ y ∧ y ≤ 3500 then "Varrock"
  else if 2940 ≤ x ∧ x ≤ 3040 ∧ 3310 ≤ y ∧ y ≤ 3400 then "Falador"
  else if 3080 ≤ x ∧ x ≤ 3120 ∧ 3230 ≤ y ∧ y ≤ 3280 then "Draynor"
  else if 3270 ≤ x ∧ x ≤ 3330 ∧ 3140 ≤ y ∧ y ≤ 3200 then "Al Kharid"
  else if 3080 ≤ x ∧ x ≤ 3110 ∧ 3480 ≤ y ∧ y ≤ 3520 then "Edgeville"
  else if 3070 ≤ x ∧ x ≤ 3110 ∧ 3410 ≤ y ∧ y ≤ 3440 then "Barbarian Village"
  else "unknown"

/-- `infer_tutorial_phase` from `src/rust_core/src/integration.rs`: Rust `match` on an
`i32` with ordered range arms; the final `_` arm catches exactly the negatives. -/
def infer_tutorial_phase (varbit_281 : ℤ) : String :=
  if varbit_281 = 0 then "character_creation"
  else if 1 ≤ varbit_281 ∧ varbit_281 ≤ 9 then "gielinor_guide"
  else if 10 ≤ varbit_281 ∧ varbit_281 ≤ 19 then "gielinor_guide"
  else if 20 ≤ varbit_281 ∧ varbit_281 ≤ 69 then "survival_expert"
  else if 70 ≤ varbit_281 ∧ varbit_281 ≤ 119 then "master_chef"
  else if 120 ≤ varbit_281 ∧ varbit_281 ≤ 169 then "quest_guide"
  else if 170 ≤ varbit_281 ∧ varbit_281 ≤ 229 then "mining_instructor"
  else if 230 ≤ varbit_281 ∧ varbit_281 ≤ 269 then "combat_instructor"
  else if 270 ≤ varbit_281 ∧ varbit_281 ≤ 309 then "financial_advisor"
  else if 310 ≤ varbit_281 ∧ varbit_281 ≤ 399 then "brother_brace"
  else if 400 ≤ varbit_281 ∧ varbit_281 ≤ 499 then "magic_instructor"
  else if 500 ≤ varbit_281 ∧ varbit_281 ≤ 599 then "magic_instructor_final"
  else if 600 ≤ varbit_281 then "completed"
  else "unknown"

/-- The defined (non-fallback) phase names, in table order. -/
def definedPhases : List String :=
  ["character_creation", "gielinor_guide", "survival_expert", "master_chef",
   "quest_guide", "mining_instructor", "combat_instructor", "financial_advisor",
   "brother_brace", "magic_instructor", "magic_instructor_final", "completed"]

/-! ## integration.rs : pipeline timing -/

structure PipelineMetrics where
  stage_name : String
  latency_ms : ℕ
  budget_ms : ℕ
  over_budget : Bool
  deriving Repr, DecidableEq

/-- `check_stage_timing` from `src/rust_core/src/integration.rs`. -/
def check_stage_timing (stage : String) (latency_ms : ℕ) : PipelineMetrics :=
  let budget :=
    if stage = "rsprox_poll" then RSPROX_POLL_MS
    else if stage = "perception" then PERCEPTION_MS
    else if stage = "decision" then DECISION_MS
    else if stage = "execution" then EXECUTION_MS
    else if stage = "verification" then VERIFICATION_MS
    else TOTAL_BUDGET_MS
  { stage_name := stage
    latency_ms := latency_ms
    budget_ms := budget
    over_budget := decide (budget < latency_ms) }

/-! ## integration.rs : snapshot merge -/

/-- `merge_snapshot_data` from `src/rust_core/src/integration.rs`.  The Rust
`capture_ms as u32` narrowing cast is modeled as `% 2 ^ 32`. -/
def merge_snapshot_data (runelite : RuneliteData) (arrow : Option (ℤ × ℤ × ℚ))
    (highlight : Option (ℤ × ℤ × ℚ)) (capture_ms : ℕ) : SnapshotSchema :=
  let snapshot := SnapshotSchema.default
  let snapshot := { snapshot with runelite_data := runelite, stale := !runelite.fresh }
  let snapshot :=
    match runelite.player_world with
    | some (x, y, plane) =>
        { snapshot with derived := { snapshot.derived with location :=
            { snapshot.derived.location with
              coordinates := ⟨x, y, plane⟩
              region := infer_region x y } } }
    | none => snapshot
  let snapshot :=
    if arrow.isSome then
      { snapshot with cues := { snapshot.cues with highlight_state := "arrow" } }
    else if highlight.isSome then
      { snapshot with cues := { snapshot.cues with highlight_state := "object" } }
    else snapshot
  { snapshot with client := { snapshot.client with
      capture_latency_ms := capture_ms % 2 ^ 32 } }

/-! ## Concrete frames used to exercise the detectors -/

/-- A 4×3 RGBA frame whose 12 pixels are all bright yellow (255, 255, 0, 255). -/
def imgYellow : List ℕ := (List.replicate 12 [255, 255, 0, 255]).flatten

/-- A 6×4 RGBA frame whose 24 pixels are all cyan (0, 255, 255, 255). -/
def imgCyan : List ℕ := (List.replicate 24 [0, 255, 255, 255]).flatten

/-- An all-yellow frame of 2^32 + 16 pixels: the exact buffer for declared
dimensions width = 268435457, height = 16, whose u32 product wraps to 16. -/
def bigBuf : List ℕ := (List.replicate (2 ^ 32 + 16) [255, 255, 0, 255]).flatten

/-- An all-yellow frame of just 16 pixels (64 bytes): the wrapped scan size for
the same declared dimensions 268435457 × 16. -/
def bufWrap : List ℕ := (List.replicate 16 [255, 255, 0, 255]).flatten

/-! ## Theorems -/

/-- `filterMap` with a guarded `some` is `filter` followed by `map`. -/
lemma filterMap_ite_eq_map_filter {α β : Type} (p : α → Prop) [DecidablePred p]
    (f : α → β) (l : List α) :
    (l.filterMap fun a => if p a then some (f a) else none) =
      (l.filter fun a => decide (p a)).map f := by
  induction l with
  | nil => rfl
  | cons a l ih =>
      by_cases h : p a <;> simp [List.filterMap_cons, List.filter_cons, h, ih]

/-- The pixel scan inside `find_yellow_arrow` is `yellowMatches` mapped to
`(x, y) = (i % width, i / width)` coordinates. -/
lemma yellow_pixels_eq (img_data : List ℕ) (width height : ℕ) :
    ((List.range (width * height % 2 ^ 32)).filterMap (fun i =>
      let offset := i * 4
      let r := img_data.getD offset 0
      let g := img_data.getD (offset + 1) 0
      let b := img_data.getD (offset + 2) 0
      if 200 < r ∧ 200 < g ∧ b < 80 then
        some (i % width, i / width)
      else none)) =
      (yellowMatches img_data width height).map (fun i => (i % width, i / width)) := by
  unfold yellowMatches
  exact filterMap_ite_eq_map_filter _ _ _

/-- The pixel scan inside `find_cyan_highlight` is `cyanMatches` mapped to
coordinates. -/
lemma cyan_pixels_eq (img_data : List ℕ) (width height : ℕ) :
    ((List.range (width * height % 2 ^ 32)).filterMap (fun i =>
      let offset := i * 4
      let r := img_data.getD offset 0
      let g := img_data.getD (offset + 1) 0
      let b := img_data.getD (offset + 2) 0
      if r < 80 ∧ 180 < g ∧ 180 < b then
        some (i % width, i / width)
      else none)) =
      (cyanMatches img_data width height).map (fun i => (i % width, i / width)) := by
  unfold cyanMatches
  exact filterMap_ite_eq_map_filter _ _ _

/-- Closed form of `find_yellow_arrow`: guard on the wrapped scan size, threshold
10 over `yellowMatches`, then the i32-cast floor-mean centroid and confidence. -/
lemma find_yellow_arrow_eq (img_data : List ℕ) (width height : ℕ) :
    find_yellow_arrow img_data width height =
      if img_data.length < width * height % 2 ^ 32 * 4 then none
      else if (yellowMatches img_data width height).length < 10 then none
      else some
        (usize_as_i32 (((yellowMatches img_data width height).map (fun i => i % width)).sum /
            (yellowMatches img_data width height).length),
          usize_as_i32 (((yellowMatches img_data width height).map (fun i => i / width)).sum /
            (yellowMatches img_data width height).length),
          min (((yellowMatches img_data width height).length : ℚ) / 500) 1) := by
  simp only [find_yellow_arrow]
  rw [yellow_pixels_eq]
  split_ifs with h1 h2 h3
  · rfl
  · rfl
  · exfalso; rw [List.length_map] at h2; omega
  · exfalso; rw [List.length_map] at h2; omega
  · simp [List.map_map, Function.comp_def]

/-- Closed form of `find_cyan_highlight`: threshold 20, normalizer 1000. -/
lemma find_cyan_highlight_eq (img_data : List ℕ) (width height : ℕ) :
    find_cyan_highlight img_data width height =
      if img_data.length < width * height % 2 ^ 32 * 4 then none
      else if (cyanMatches img_data width height).length < 20 then none
      else some
        (usize_as_i32 (((cyanMatches img_data width height).map (fun i => i % width)).sum /
            (cyanMatches img_data width height).length),
          usize_as_i32 (((cyanMatches img_data width height).map (fun i => i / width)).sum /
            (cyanMatches img_data width height).length),
          min (((cyanMatches img_data width height).length : ℚ) / 1000) 1) := by
  simp only [find_cyan_highlight]
  rw [cyan_pixels_eq]
  split_ifs with h1 h2 h3
  · rfl
  · rfl
  · exfalso; rw [List.length_map] at h2; omega
  · exfalso; rw [List.length_map] at h2; omega
  · simp [List.map_map, Function.comp_def]

/-- Length of a flattened replicate. -/
lemma flatten_replicate_length (n : ℕ) (q : List ℕ) :
    ((List.replicate n q).flatten).length = n * q.length := by
  simp [List.length_flatten, List.map_replicate, List.sum_replicate, smul_eq_mul]

/-- Byte `j` of a flattened replicate is byte `j mod |q|` of the repeated block. -/
lemma getD_flatten_replicate (q : List ℕ) (n j : ℕ) (hj : j < n * q.length) :
    ((List.replicate n q).flatten).getD j 0 = q.getD (j % q.length) 0 := by
  induction n generalizing j with
  | zero => omega
  | succ n ih =>
      rw [List.replicate_succ, List.flatten_cons]
      by_cases h : j < q.length
      · rw [List.getD_append _ _ _ _ h, Nat.mod_eq_of_lt h]
      · push_neg at h
        rw [List.getD_append_right _ _ _ _ h]
        have hj' : j - q.length < n * q.length := by
          have hs : (n + 1) * q.length = n * q.length + q.length := by ring
          rw [hs] at hj
          omega
        rw [ih (j - q.length) hj']
        congr 1
        exact (Nat.mod_eq_sub_mod h).symm

/-- The first three bytes of pixel `i` of a flattened RGBA quad pattern. -/
lemma quad_flatten_bytes (a b c d n i : ℕ) (hi : i < n) :
    ((List.replicate n [a, b, c, d]).flatten).getD (i * 4) 0 = a ∧
    ((List.replicate n [a, b, c, d]).flatten).getD (i * 4 + 1) 0 = b ∧
    ((List.replicate n [a, b, c, d]).flatten).getD (i * 4 + 2) 0 = c := by
  have hL : ([a, b, c, d] : List ℕ).length = 4 := rfl
  refine ⟨?_, ?_, ?_⟩
  · rw [getD_flatten_replicate _ _ _ (by rw [hL]; omega), hL,
      show i * 4 % 4 = 0 from by omega]
    rfl
  · rw [getD_flatten_replicate _ _ _ (by rw [hL]; omega), hL,
      show (i * 4 + 1) % 4 = 1 from by omega]
    rfl
  · rw [getD_flatten_replicate _ _ _ (by rw [hL]; omega), hL,
      show (i * 4 + 2) % 4 = 2 from by omega]
    rfl

/-- Every pixel of `bigBuf` satisfies the yellow predicate. -/
lemma bigBuf_yellow (i : ℕ) (hi : i < 2 ^ 32 + 16) :
    200 < bigBuf.getD (i * 4) 0 ∧ 200 < bigBuf.getD (i * 4 + 1) 0 ∧
      bigBuf.getD (i * 4 + 2) 0 < 80 := by
  obtain ⟨h0, h1, h2⟩ := quad_flatten_bytes 255 255 0 255 (2 ^ 32 + 16) i hi
  unfold bigBuf
  rw [h0, h1, h2]
  norm_num

/-- Claim C5: for every action intent and every snapshot, the `ValidationResult`
returned by `validate_intent` and by `validate_snapshot` satisfies
`valid == errors.isEmpty()`: `valid` is true exactly when the accumulated error list
is empty. -/
theorem validation_valid_iff_errors_empty (intent : ActionIntent) (snapshot : SnapshotSchema) :
    (validate_intent intent).valid = (validate_intent intent).errors.isEmpty ∧
    (validate_snapshot snapshot).valid = (validate_snapshot snapshot).errors.isEmpty :=
  ⟨rfl, rfl⟩

/-- A range arm of the tutorial-phase chain whose condition fails is skipped. -/
lemma phase_arm_skip {c : Prop} [Decidable c] {s e : String} (h : ¬ c) :
    (if c then s else e) = e := if_neg h

/-- A range arm of the tutorial-phase chain whose condition holds is taken. -/
lemma phase_arm_take {c : Prop} [Decidable c] {s e : String} (h : c) :
    (if c then s else e) = s := if_pos h

/-- Every non-negative input lands in one of the twelve defined phase names. -/
lemma infer_tutorial_phase_mem (v : ℤ) (h : 0 ≤ v) :
    infer_tutorial_phase v ∈ definedPhases := by
  unfold infer_tutorial_phase
  rcases (by omega :
      v = 0 ∨ (1 ≤ v ∧ v ≤ 9) ∨ (10 ≤ v ∧ v ≤ 19) ∨ (20 ≤ v ∧ v ≤ 69) ∨
      (70 ≤ v ∧ v ≤ 119) ∨ (120 ≤ v ∧ v ≤ 169) ∨ (170 ≤ v ∧ v ≤ 229) ∨
      (230 ≤ v ∧ v ≤ 269) ∨ (270 ≤ v ∧ v ≤ 309) ∨ (310 ≤ v ∧ v ≤ 399) ∨
      (400 ≤ v ∧ v ≤ 499) ∨ (500 ≤ v ∧ v ≤ 599) ∨ 600 ≤ v) with
    hv | hv | hv | hv | hv | hv | hv | hv | hv | hv | hv | hv | hv
  · rw [phase_arm_take hv]; decide
  · rw [phase_arm_skip (by omega), phase_arm_take (by omega)]; decide
  · rw [phase_arm_skip (by omega), phase_arm_skip (by omega), phase_arm_take (by omega)]; decide
  · rw [phase_arm_skip (by omega), phase_arm_skip (by omega), phase_arm_skip (by omega), phase_arm_take (by omega)]; decide
  · rw [phase_arm_skip (by omega), phase_arm_skip (by omega), phase_arm_skip (by omega), phase_arm_skip (by omega),
      phase_arm_take (by omega)]; decide
  · rw [phase_arm_skip (by omega), phase_arm_skip (by omega), phase_arm_skip (by omega), phase_arm_skip (by omega),
      phase_arm_skip (by omega), phase_arm_take (by omega)]; decide
  · rw [phase_arm_skip (by omega), phase_arm_skip (by omega), phase_arm_skip (by omega), phase_arm_skip (by omega),
      phase_arm_skip (by omega), phase_arm_skip (by omega), phase_arm_take (by omega)]; decide
  · rw [phase_arm_skip (by omega), phase_arm_skip (by omega), phase_arm_skip (by omega), phase_arm_skip (by omega),
      phase_arm_skip (by omega), phase_arm_skip (by omega), phase_arm_skip (by omega), phase_arm_take (by omega)]; decide
  · rw [phase_arm_skip (by omega), phase_arm_skip (by omega), phase_arm_skip (by omega), phase_arm_skip (by omega),
      phase_arm_skip (by omega), phase_arm_skip (by omega), phase_arm_skip (by omega), phase_arm_skip (by omega),
      phase_arm_take (by omega)]; decide
  · rw [phase_arm_skip (by omega), phase_arm_skip (by omega), phase_arm_skip (by omega), phase_arm_skip (by omega),
      phase_arm_skip (by omega), phase_arm_skip (by omega), phase_arm_skip (by omega), phase_arm_skip (by omega),
      phase_arm_skip (by omega), phase_arm_take (by omega)]; decide
  · rw [phase_arm_skip (by omega), phase_arm_skip (by omega), phase_arm_skip (by omega), phase_arm_skip (by omega),
      phase_arm_skip (by omega), phase_arm_skip (by omega), phase_arm_skip (by omega), phase_arm_skip (by omega),
      phase_arm_skip (by omega), phase_arm_skip (by omega), phase_arm_take (by omega)]; decide
  · rw [phase_arm_skip (by omega), phase_arm_skip (by omega), phase_arm_skip (by omega), phase_arm_skip (by omega),
      phase_arm_skip (by omega), phase_arm_skip (by omega), phase_arm_skip (by omega), phase_arm_skip (by omega),
      phase_arm_skip (by omega), phase_arm_skip (by omega), phase_arm_skip (by omega), phase_arm_take (by omega)]; decide
  · rw [phase_arm_skip (by omega), phase_arm_skip (by omega), phase_arm_skip (by omega), phase_arm_skip (by omega),
      phase_arm_skip (by omega), phase_arm_skip (by omega), phase_arm_skip (by omega), phase_arm_skip (by omega),
      phase_arm_skip (by omega), phase_arm_skip (by omega), phase_arm_skip (by omega), phase_arm_skip (by omega),
      phase_arm_take (by omega)]; decide

/-- Claim C8: `infer_tutorial_phase` is total and exhaustive over the non-negative
integers with no gaps: every integer ≥ 0 maps to exactly one defined phase name
(membership in `definedPhases`, and never the fallback `"unknown"`), every value
≥ 600 maps to `"completed"`, and every negative input maps to `"unknown"`. -/
theorem infer_tutorial_phase_total (v : ℤ) :
    (0 ≤ v → infer_tutorial_phase v ∈ definedPhases) ∧
    (0 ≤ v → infer_tutorial_phase v ≠ "unknown") ∧
    (600 ≤ v → infer_tutorial_phase v = "completed") ∧
    (v < 0 → infer_tutorial_phase v = "unknown") := by
  refine ⟨fun h => infer_tutorial_phase_mem v h, fun h hc => ?_, fun h => ?_, fun h => ?_⟩
  · have hm := infer_tutorial_phase_mem v h
    rw [hc] at hm
    exact absurd hm (by decide)
  · unfold infer_tutorial_phase
    rw [phase_arm_skip (by omega), phase_arm_skip (by omega), phase_arm_skip (by omega), phase_arm_skip (by omega),
      phase_arm_skip (by omega), phase_arm_skip (by omega), phase_arm_skip (by omega), phase_arm_skip (by omega),
      phase_arm_skip (by omega), phase_arm_skip (by omega), phase_arm_skip (by omega), phase_arm_skip (by omega),
      phase_arm_take h]
  · unfold infer_tutorial_phase
    rw [phase_arm_skip (by omega), phase_arm_skip (by omega), phase_arm_skip (by omega), phase_arm_skip (by omega),
      phase_arm_skip (by omega), phase_arm_skip (by omega), phase_arm_skip (by omega), phase_arm_skip (by omega),
      phase_arm_skip (by omega), phase_arm_skip (by omega), phase_arm_skip (by omega), phase_arm_skip (by omega),
      phase_arm_skip (by omega)]

/-- Witness for C8 at concrete inputs 700, -5 and 42. -/
theorem infer_tutorial_phase_total_witness :
    infer_tutorial_phase 700 = "completed" ∧ infer_tutorial_phase (-5) = "unknown" ∧
    infer_tutorial_phase 42 ∈ definedPhases :=
  ⟨(infer_tutorial_phase_total 700).2.2.1 (by norm_num),
   (infer_tutorial_phase_total (-5)).2.2.2 (by norm_num),
   (infer_tutorial_phase_total 42).1 (by norm_num)⟩

/-- Claim C9: `check_stage_timing` is a pure deterministic function (a Lean function
by construction): the returned metrics carry the input stage name and latency,
`budget_ms` equal to the fixed per-stage table value (rsprox_poll 50, perception 100,
decision 200, execution 150, verification 50) or the total budget 600 for any
unrecognized stage name, and `over_budget == (latency_ms > budget_ms)` always. -/
theorem check_stage_timing_spec (stage : String) (latency_ms : ℕ) :
    (check_stage_timing stage latency_ms).stage_name = stage ∧
    (check_stage_timing stage latency_ms).latency_ms = latency_ms ∧
    ((check_stage_timing stage latency_ms).over_budget = true ↔
      (check_stage_timing stage latency_ms).budget_ms < latency_ms) ∧
    (stage = "rsprox_poll" → (check_stage_timing stage latency_ms).budget_ms = 50) ∧
    (stage = "perception" → (check_stage_timing stage latency_ms).budget_ms = 100) ∧
    (stage = "decision" → (check_stage_timing stage latency_ms).budget_ms = 200) ∧
    (stage = "execution" → (check_stage_timing stage latency_ms).budget_ms = 150) ∧
    (stage = "verification" → (check_stage_timing stage latency_ms).budget_ms = 50) ∧
    (stage ∉ ["rsprox_poll", "perception", "decision", "execution", "verification"] →
      (check_stage_timing stage latency_ms).budget_ms = 600) := by
  refine ⟨rfl, rfl, by simp [check_stage_timing], ?_, ?_, ?_, ?_, ?_, ?_⟩ <;> intro h
  · simp [check_stage_timing, h, RSPROX_POLL_MS]
  · simp [check_stage_timing, h, PERCEPTION_MS]
  · simp [check_stage_timing, h, DECISION_MS]
  · simp [check_stage_timing, h, EXECUTION_MS]
  · simp [check_stage_timing, h, VERIFICATION_MS]
  · simp only [List.mem_cons, List.not_mem_nil, or_false, not_or] at h
    obtain ⟨h1, h2, h3, h4, h5⟩ := h
    simp [check_stage_timing, h1, h2, h3, h4, h5, TOTAL_BUDGET_MS]

/-- Witness for C9 at stage "perception" with latency 150 (over budget) and at an
unrecognized stage name. -/
theorem check_stage_timing_spec_witness :
    (check_stage_timing "perception" 150).budget_ms = 100 ∧
    (check_stage_timing "perception" 150).over_budget = true ∧
    (check_stage_timing "warmup" 7).budget_ms = 600 := by
  obtain ⟨-, -, hob, -, h2, -, -, -, -⟩ := check_stage_timing_spec "perception" 150
  obtain ⟨-, -, -, -, -, -, -, -, h6⟩ := check_stage_timing_spec "warmup" 7
  refine ⟨h2 rfl, hob.mpr ?_, h6 (by decide)⟩
  rw [h2 rfl]; norm_num

/-- Claim C10: `merge_snapshot_data` stores `client.capture_latency_ms` as the
supplied 64-bit `capture_ms` reduced modulo `2 ^ 32` (the `as u32` narrowing cast):
durations ≥ `2 ^ 32` ms silently wrap rather than saturating or failing. -/
theorem merge_capture_latency_mod (runelite : RuneliteData)
    (arrow highlight : Option (ℤ × ℤ × ℚ)) (capture_ms : ℕ) (_h : capture_ms < 2 ^ 64) :
    (merge_snapshot_data runelite arrow highlight capture_ms).client.capture_latency_ms =
      capture_ms % 2 ^ 32 := by
  unfold merge_snapshot_data
  rcases runelite.player_world with - | ⟨x, y, plane⟩ <;>
    rcases arrow with - | a <;> rcases highlight with - | b <;> simp

/-- Witness for C10: a 2^32 + 5 ms capture duration wraps to 5. -/
theorem merge_capture_latency_mod_witness :
    (merge_snapshot_data RuneliteData.default none none (2 ^ 32 + 5)).client.capture_latency_ms
      = 5 := by
  have H := merge_capture_latency_mod RuneliteData.default none none (2 ^ 32 + 5)
    (by norm_num)
  rw [H]; norm_num

/-- Claim C3 counterexample: a detection call whose buffer is shorter than the
declared dimensions (here the empty buffer with width = height = 1, so
0 < 1*1*4) is NOT surfaced as a typed failure (`Except.error`): the boundary
wrappers return `Except.ok none`, exactly the ordinary "not found" value of the
underlying detectors. -/
theorem detect_short_buffer_counterexample :
    detect_arrow [] 1 1 = Except.ok none ∧ find_yellow_arrow [] 1 1 = none ∧
    detect_highlight [] 1 1 = Except.ok none ∧ find_cyan_highlight [] 1 1 = none :=
  ⟨rfl, rfl, rfl, rfl⟩

/-- Claim C3 amended: for every detection call whose buffer is shorter than the
scan size the code computes — `(width * height mod 2^32) * 4`, the u32 product
wrapping in release builds (an overflow-checked build panics instead) — the
boundary operations `detect_arrow` / `detect_highlight` silently coerce the
condition into the ordinary "not found" result (`Except.ok none`); no typed
failure is produced. -/
theorem detect_short_buffer_coerced (img_data : List ℕ) (width height : ℕ)
    (hshort : img_data.length < width * height % 2 ^ 32 * 4) :
    detect_arrow img_data width height = Except.ok none ∧
    detect_highlight img_data width height = Except.ok none := by
  unfold detect_arrow detect_highlight
  rw [find_yellow_arrow_eq, find_cyan_highlight_eq, if_pos hshort, if_pos hshort]
  exact ⟨rfl, rfl⟩

/-- Witness for the amended C3 at a 3-byte buffer declared as a 1×1 frame. -/
theorem detect_short_buffer_coerced_witness :
    detect_arrow [0, 0, 0] 1 1 = Except.ok none ∧
    detect_highlight [0, 0, 0] 1 1 = Except.ok none :=
  detect_short_buffer_coerced [0, 0, 0] 1 1 (by norm_num)

/-- Claim C4 counterexample: when the telemetry carries no world-position triple,
`merge_snapshot_data` leaves `derived.location.region` at the default `""`, while
region-lookup on the (default) coordinates `(0, 0)` yields `"unknown"` — so the
region field is NOT always `infer_region` of the coordinates field. -/
theorem merge_region_counterexample :
    (merge_snapshot_data { RuneliteData.default with fresh := true } none none
        0).derived.location.region ≠
      infer_region
        (merge_snapshot_data { RuneliteData.default with fresh := true } none none
          0).derived.location.coordinates.x
        (merge_snapshot_data { RuneliteData.default with fresh := true } none none
          0).derived.location.coordinates.y := by
  decide

/-- Claim C4 amended: `merge_snapshot_data` couples the region field to the
coordinates field exactly when the telemetry carries a world-position triple:
then `derived.location.coordinates = (x, y, plane)` and
`derived.location.region = infer_region x y`; with no triple both stay at their
defaults, region `""` (which differs from `infer_region 0 0 = "unknown"`). -/
theorem merge_region_spec (runelite : RuneliteData)
    (arrow highlight : Option (ℤ × ℤ × ℚ)) (capture_ms : ℕ) :
    (∀ x y plane, runelite.player_world = some (x, y, plane) →
      (merge_snapshot_data runelite arrow highlight capture_ms).derived.location.coordinates
          = ⟨x, y, plane⟩ ∧
      (merge_snapshot_data runelite arrow highlight capture_ms).derived.location.region
          = infer_region x y) ∧
    (runelite.player_world = none →
      (merge_snapshot_data runelite arrow highlight capture_ms).derived.location.region
          = "" ∧
      (merge_snapshot_data runelite arrow highlight capture_ms).derived.location.coordinates
          = WorldCoord.default) := by
  constructor
  · intro x y plane hw
    unfold merge_snapshot_data
    rw [hw]
    rcases arrow with - | a <;> rcases highlight with - | b <;>
      simp [SnapshotSchema.default, DerivedInfo.default, LocationInfo.default]
  · intro hw
    unfold merge_snapshot_data
    rw [hw]
    rcases arrow with - | a <;> rcases highlight with - | b <;>
      simp [SnapshotSchema.default, DerivedInfo.default, LocationInfo.default]

/-- Witness for the amended C4: telemetry at world position (3100, 3100, 0) gives
coordinates (3100, 3100, 0) and region "Tutorial Island". -/
theorem merge_region_spec_witness :
    (merge_snapshot_data { RuneliteData.default with player_world := some (3100, 3100, 0) }
        none none 0).derived.location.region = "Tutorial Island" := by
  have H := (merge_region_spec
    { RuneliteData.default with player_world := some (3100, 3100, 0) } none none 0).1
    3100 3100 0 rfl
  rw [H.2]; decide

/-- Claim C6: in `merge_snapshot_data`, an arrow detection unconditionally takes
priority: with an arrow present (whatever the highlight), `cues.highlight_state` is
`"arrow"` (hence never `"object"`); with only a highlight present it is `"object"`;
with neither it stays empty. -/
theorem merge_cue_precedence (runelite : RuneliteData) (capture_ms : ℕ)
    (arrow highlight : Option (ℤ × ℤ × ℚ)) :
    (arrow.isSome →
      (merge_snapshot_data runelite arrow highlight capture_ms).cues.highlight_state
        = "arrow") ∧
    (arrow = none → highlight.isSome →
      (merge_snapshot_data runelite arrow highlight capture_ms).cues.highlight_state
        = "object") ∧
    (arrow = none → highlight = none →
      (merge_snapshot_data runelite arrow highlight capture_ms).cues.highlight_state
        = "") := by
  unfold merge_snapshot_data
  rcases hw : runelite.player_world with - | ⟨x, y, plane⟩ <;>
    rcases arrow with - | a <;> rcases highlight with - | b <;>
    simp [SnapshotSchema.default, CuesInfo.default]

/-- Witness for C6: with both cues detected the state is "arrow", which is not
"object"; with only a highlight it is "object". -/
theorem merge_cue_precedence_witness :
    (merge_snapshot_data RuneliteData.default (some (5, 6, 1)) (some (7, 8, 1))
        0).cues.highlight_state = "arrow" ∧
    "arrow" ≠ "object" ∧
    (merge_snapshot_data RuneliteData.default none (some (7, 8, 1))
        0).cues.highlight_state = "object" := by
  obtain ⟨h1, -, -⟩ :=
    merge_cue_precedence RuneliteData.default 0 (some (5, 6, 1)) (some (7, 8, 1))
  obtain ⟨-, h2, -⟩ := merge_cue_precedence RuneliteData.default 0 none (some (7, 8, 1))
  exact ⟨h1 rfl, by decide, h2 rfl rfl⟩

/-- Claim C7: for every intent whose `action_type` is one of click/interact/walk/drag:
with none of the target sub-fields x, name, ui_element, npc_id, object_id populated,
`validate_intent` yields `valid = false` and an error naming the offending
action_type ("Action type '<ty>' requires target"); with at least one of those
sub-fields populated and confidence in [0, 1], it yields `valid = true`. -/
theorem validate_intent_target_rule (intent : ActionIntent)
    (hty : intent.action_type ∈ ["click", "interact", "walk", "drag"]) :
    ((intent.target.x = none ∧ intent.target.name = none ∧
        intent.target.ui_element = none ∧ intent.target.npc_id = none ∧
        intent.target.object_id = none) →
      (validate_intent intent).valid = false ∧
      ("Action type \x27" ++ intent.action_type ++ "\x27 requires target")
        ∈ (validate_intent intent).errors) ∧
    ((intent.target.x.isSome = true ∨ intent.target.name.isSome = true ∨
        intent.target.ui_element.isSome = true ∨ intent.target.npc_id.isSome = true ∨
        intent.target.object_id.isSome = true) →
      0 ≤ intent.confidence → intent.confidence ≤ 1 →
      (validate_intent intent).valid = true) := by
  simp only [List.mem_cons, List.not_mem_nil, or_false] at hty
  constructor
  · rintro ⟨hx, hn, hu, hnp, ho⟩
    by_cases hc : intent.confidence < 0 ∨ 1 < intent.confidence <;>
      rcases hty with h | h | h | h <;>
      simp [validate_intent, VALID_ACTION_TYPES, h, hx, hn, hu, hnp, ho, hc]
  · intro hsome h0 h1
    have hc : ¬ (intent.confidence < 0 ∨ 1 < intent.confidence) := by
      push_neg
      exact ⟨h0, h1⟩
    have hst : (intent.target.x.isSome
        || intent.target.name.isSome
        || intent.target.ui_element.isSome
        || intent.target.npc_id.isSome
        || intent.target.object_id.isSome) = true := by
      rcases hsome with h | h | h | h | h <;> simp [h]
    rcases hty with h | h | h | h <;>
      simp [validate_intent, VALID_ACTION_TYPES, h, hst, hc]

/-- Witness for C7: a "click" intent with an empty target is invalid with the
"requires target" error; the same intent with target (100, 200) and confidence 0.9
is valid. -/
theorem validate_intent_target_rule_witness :
    (validate_intent ⟨"test_2", "click", ActionTarget.default, 9 / 10, [],
        GatingConfig.default, []⟩).valid = false ∧
    ("Action type \x27click\x27 requires target")
      ∈ (validate_intent ⟨"test_2", "click", ActionTarget.default, 9 / 10, [],
          GatingConfig.default, []⟩).errors ∧
    (validate_intent ⟨"test_1", "click", ⟨some 100, some 200, none, none, none, none⟩,
        9 / 10, [], GatingConfig.default, []⟩).valid = true := by
  obtain ⟨ha, -⟩ := validate_intent_target_rule
    ⟨"test_2", "click", ActionTarget.default, 9 / 10, [], GatingConfig.default, []⟩
    (by decide)
  obtain ⟨-, hb⟩ := validate_intent_target_rule
    ⟨"test_1", "click", ⟨some 100, some 200, none, none, none, none⟩, 9 / 10, [],
      GatingConfig.default, []⟩
    (by decide)
  obtain ⟨h1, h2⟩ := ha ⟨rfl, rfl, rfl, rfl, rfl⟩
  exact ⟨h1, h2, hb (Or.inl rfl) (by norm_num) (by norm_num)⟩

/-- Claim C1 counterexample: `bigBuf` (an all-yellow frame of 2^32 + 16 pixels,
length exactly width*height*4 for width = 268435457, height = 16) has
2^32 + 16 ≥ 10 pixels satisfying the yellow predicate, so the claim asserts a
confidence of min((2^32 + 16)/500, 1) = 1; but the u32 product width*height wraps
to 16, only the first 16 pixels are scanned, and the program returns confidence
16/500 = 4/125 ≠ 1 (centroid (7, 0), over the scanned prefix alone). -/
theorem detection_full_frame_counterexample :
    bigBuf.length = 268435457 * 16 * 4 ∧
    ((List.range (268435457 * 16)).filter (fun i =>
        decide (200 < bigBuf.getD (i * 4) 0 ∧ 200 < bigBuf.getD (i * 4 + 1) 0 ∧
          bigBuf.getD (i * 4 + 2) 0 < 80))).length = 2 ^ 32 + 16 ∧
    find_yellow_arrow bigBuf 268435457 16 = some (7, 0, 4 / 125) ∧
    min (((2 ^ 32 + 16 : ℕ) : ℚ) / 500) 1 ≠ 4 / 125 := by
  have hL : bigBuf.length = (2 ^ 32 + 16) * 4 := by
    unfold bigBuf
    rw [flatten_replicate_length]
    rfl
  refine ⟨by rw [hL]; norm_num, ?_, ?_, ?_⟩
  · rw [show (268435457 * 16 : ℕ) = 2 ^ 32 + 16 from by norm_num]
    rw [List.filter_eq_self.mpr ?_, List.length_range]
    intro i hi
    rw [List.mem_range] at hi
    simpa using bigBuf_yellow i hi
  · rw [find_yellow_arrow_eq]
    rw [show yellowMatches bigBuf 268435457 16 = List.range 16 from by
      unfold yellowMatches
      rw [show 268435457 * 16 % 2 ^ 32 = 16 from by norm_num]
      refine List.filter_eq_self.mpr ?_
      intro i hi
      rw [List.mem_range] at hi
      simpa using bigBuf_yellow i (by omega)]
    rw [if_neg (by rw [hL]; norm_num), if_neg (by rw [List.length_range]; norm_num)]
    rw [show ((List.range 16).map (fun i => i % 268435457)).sum /
        (List.range 16).length = 7 from by decide]
    rw [show ((List.range 16).map (fun i => i / 268435457)).sum /
        (List.range 16).length = 0 from by decide]
    rw [show usize_as_i32 7 = 7 from by decide, show usize_as_i32 0 = 0 from by decide]
    rw [show ((List.range 16).length : ℚ) = 16 from by norm_num]
    rw [min_eq_left (by norm_num)]
    norm_num
  · rw [min_eq_right (by push_cast; norm_num)]
    norm_num

/-- Claim C1 amended: for u32 dimensions (width, height < 2^32) and a buffer of
length at least `(width * height mod 2^32) * 4` — the scan size the code computes
with u32 multiplication (release wrap semantics; an overflow-checked build
panics instead): `find_yellow_arrow` returns `none` when fewer than 10 of the
scanned pixels satisfy the yellow predicate (r > 200, g > 200, b < 80), and
otherwise a point whose x and y are the `usize as i32` casts of the
integer-division (floor) means of the scanned matched pixels' x and y
coordinates and whose confidence is `min(count / 500, 1.0)`; symmetrically
`find_cyan_highlight` with the cyan predicate (r < 80, g > 180, b > 180),
threshold 20 and normalizer 1000. -/
theorem detection_threshold_centroid_confidence (img_data : List ℕ) (width height : ℕ)
    (_hw : width < 2 ^ 32) (_hh : height < 2 ^ 32)
    (hlen : width * height % 2 ^ 32 * 4 ≤ img_data.length) :
    ((yellowMatches img_data width height).length < 10 →
        find_yellow_arrow img_data width height = none) ∧
    (10 ≤ (yellowMatches img_data width height).length →
        find_yellow_arrow img_data width height = some
          (usize_as_i32 (((yellowMatches img_data width height).map (fun i => i % width)).sum /
              (yellowMatches img_data width height).length),
            usize_as_i32 (((yellowMatches img_data width height).map (fun i => i / width)).sum /
              (yellowMatches img_data width height).length),
            min (((yellowMatches img_data width height).length : ℚ) / 500) 1)) ∧
    ((cyanMatches img_data width height).length < 20 →
        find_cyan_highlight img_data width height = none) ∧
    (20 ≤ (cyanMatches img_data width height).length →
        find_cyan_highlight img_data width height = some
          (usize_as_i32 (((cyanMatches img_data width height).map (fun i => i % width)).sum /
              (cyanMatches img_data width height).length),
            usize_as_i32 (((cyanMatches img_data width height).map (fun i => i / width)).sum /
              (cyanMatches img_data width height).length),
            min (((cyanMatches img_data width height).length : ℚ) / 1000) 1)) := by
  refine ⟨fun hc => ?_, fun hc => ?_, fun hc => ?_, fun hc => ?_⟩
  · rw [find_yellow_arrow_eq, if_neg (by omega), if_pos hc]
  · rw [find_yellow_arrow_eq, if_neg (by omega), if_neg (by omega)]
  · rw [find_cyan_highlight_eq, if_neg (by omega), if_pos hc]
  · rw [find_cyan_highlight_eq, if_neg (by omega), if_neg (by omega)]

/-- Witness for C1: a 4×3 all-yellow frame has 12 yellow matches, centroid (1, 1)
and confidence 12/500 = 3/125 (and no cyan highlight); a 6×4 all-cyan frame has 24
cyan matches, centroid (2, 1) and confidence 24/1000 = 3/125 (and no arrow). -/
theorem detection_threshold_centroid_confidence_witness :
    find_yellow_arrow imgYellow 4 3 = some (1, 1, 3 / 125) ∧
    find_cyan_highlight imgYellow 4 3 = none ∧
    find_cyan_highlight imgCyan 6 4 = some (2, 1, 3 / 125) ∧
    find_yellow_arrow imgCyan 6 4 = none := by
  have HY := detection_threshold_centroid_confidence imgYellow 4 3 (by norm_num)
    (by norm_num) (by decide)
  have HC := detection_threshold_centroid_confidence imgCyan 6 4 (by norm_num)
    (by norm_num) (by decide)
  refine ⟨(HY.2.1 (by decide)).trans ?_, HY.2.2.1 (by decide),
    (HC.2.2.2 (by decide)).trans ?_, HC.1 (by decide)⟩
  · rw [show yellowMatches imgYellow 4 3 = [0, 1, 2, 3, 4, 5, 6, 7, 8, 9, 10, 11]
      from by decide]
    norm_num [usize_as_i32, min_eq_left]
  · rw [show cyanMatches imgCyan 6 4 =
        [0, 1, 2, 3, 4, 5, 6, 7, 8, 9, 10, 11, 12, 13, 14, 15, 16, 17, 18, 19, 20,
         21, 22, 23] from by decide]
    norm_num [usize_as_i32, min_eq_left]

/-- Claim C2 counterexample: for width = 268435457, height = 16 the u32 product
wraps to 16, so the 64-byte all-yellow buffer `bufWrap` — shorter than the
mathematical width*height*4 = 17179869248 — is not rejected: the program scans it
as a 16-pixel frame and returns `some`, not the `none` the claim requires
(an overflow-checked build panics on the same input instead). -/
theorem detection_guard_wrap_counterexample :
    bufWrap.length < 268435457 * 16 * 4 ∧
    find_yellow_arrow bufWrap 268435457 16 = some (7, 0, 4 / 125) := by
  constructor
  · decide
  · rw [find_yellow_arrow_eq]
    rw [show yellowMatches bufWrap 268435457 16 = List.range 16 from by decide]
    rw [if_neg (by decide), if_neg (by rw [List.length_range]; norm_num)]
    rw [show ((List.range 16).map (fun i => i % 268435457)).sum /
        (List.range 16).length = 7 from by decide]
    rw [show ((List.range 16).map (fun i => i / 268435457)).sum /
        (List.range 16).length = 0 from by decide]
    rw [show usize_as_i32 7 = 7 from by decide, show usize_as_i32 0 = 0 from by decide]
    rw [show ((List.range 16).length : ℚ) = 16 from by norm_num]
    rw [min_eq_left (by norm_num)]
    norm_num

/-- Claim C2 amended: for u32 dimensions, a buffer shorter than
`(width * height mod 2^32) * 4` — the wrapped pixel count the code computes and
the same bound its scan uses — makes both detectors return `none` without
scanning; and whenever the scan runs, every byte offset it reads — `i*4`,
`i*4+1`, `i*4+2` for a scanned pixel index `i < width * height mod 2^32` — lies
strictly within the buffer's length, so no out-of-bounds access is possible.
(A buffer shorter than the mathematical `width*height*4` is not necessarily
rejected when the u32 product wraps.) -/
theorem detection_buffer_guard (img_data : List ℕ) (width height : ℕ)
    (_hw : width < 2 ^ 32) (_hh : height < 2 ^ 32) :
    (img_data.length < width * height % 2 ^ 32 * 4 →
      find_yellow_arrow img_data width height = none ∧
      find_cyan_highlight img_data width height = none) ∧
    (width * height % 2 ^ 32 * 4 ≤ img_data.length →
      ∀ i < width * height % 2 ^ 32, ∀ j ∈ readOffsets i, j < img_data.length) := by
  constructor
  · intro hshort
    exact ⟨by rw [find_yellow_arrow_eq, if_pos hshort],
      by rw [find_cyan_highlight_eq, if_pos hshort]⟩
  · intro hlen i hi j hj
    simp only [readOffsets, List.mem_cons, List.not_mem_nil, or_false] at hj
    rcases hj with rfl | rfl | rfl <;> omega

/-- Witness for C2: a 1-byte buffer declared 2×2 yields `none` twice, and on a 4-byte
1×1 buffer every offset read for pixel 0 is in bounds. -/
theorem detection_buffer_guard_witness :
    find_yellow_arrow [0] 2 2 = none ∧ find_cyan_highlight [0] 2 2 = none ∧
    ∀ j ∈ readOffsets 0, j < ([0, 0, 0, 0] : List ℕ).length := by
  obtain ⟨h1, -⟩ := detection_buffer_guard [0] 2 2 (by norm_num) (by norm_num)
  obtain ⟨-, h2⟩ := detection_buffer_guard [0, 0, 0, 0] 1 1 (by norm_num) (by norm_num)
  have hp := h1 (by norm_num)
  exact ⟨hp.1, hp.2, h2 (by norm_num) 0 (by norm_num)⟩
